import Mathlib

/-!
Verification development for the wall-finishing-robot planning service
(src/wallFinishingRobot.py), a FastAPI application backed by Redis (key/value
cache), PostgreSQL (walls and paths tables) and RabbitMQ (robot_path queue).

Shallow embedding conventions:
* Python floats are modelled as exact rationals (the inputs of interest are
  numerals); Python's int(...) truncation toward zero is truncQ.
* The Redis keyspace is modelled as a pair of maps from full key strings
  ("wall:ID:obstacles" and "path:ID") to the typed values the code stores
  there (obstacle lists and path cell lists); json.dumps/json.loads
  round-trips are the identity in the model.
* The PostgreSQL tables are modelled as lists of rows appended in insertion
  order; a SELECT ... WHERE id = X with fetchone is List.find?.
* RabbitMQ's basic_publish is modelled by appending the published path to a
  list of published messages.
* uuid.uuid4() calls are modelled by explicit fresh-identifier arguments.
* A fastapi HTTPException with status s and detail d is ApiError.http s d;
  the broad try/except in generate_path that converts any exception into an
  HTTP 500 with the stringified exception is modelled by returning
  ApiError.http 500 with the corresponding message.
-/

/-- Truncation of a rational toward zero, the behaviour of Python int(...)
on a float: the magnitude is divided out and the sign restored, so
truncQ (-1/2) = 0 (Int's own / is Euclidean division and would floor
-1/2 to -1, which Python's int() does not do). -/
def truncQ (q : ℚ) : Int :=
  if q.num < 0 then -((-q.num) / (q.den : Int)) else q.num / (q.den : Int)

/-- The hardcoded grid size from generate_path (grid_size = 10). -/
def gridSize : Nat := 10

/-- A grid cell, written (x, y); the occupancy grid stores it at grid[y][x]. -/
abbrev Cell := Nat × Nat

/-- The Obstacle request model: shape tag, anchor position and optional
shape-specific extents (source lines 57-63). -/
structure Obstacle where
  shape : String
  x : ℚ
  y : ℚ
  radius : Option ℚ
  width : Option ℚ
  height : Option ℚ
deriving DecidableEq, Repr

/-- The Wall request model (source lines 65-68). -/
structure Wall where
  width : ℚ
  height : ℚ
  obstacles : List Obstacle
deriving DecidableEq, Repr

/-- The PathRequest model (source lines 70-72). -/
structure PathRequest where
  wall_id : String
  algorithm : String
deriving DecidableEq, Repr

/-- The metrics dict built at source line 101. -/
structure Metrics where
  duration_ms : Nat
  path_length : Nat
deriving DecidableEq, Repr

/-- The JSON object returned by a successful generate_path
(source line 110). -/
structure PlanResponse where
  path_id : String
  path : List Cell
  metrics : Metrics
deriving DecidableEq, Repr

/-- The field names of the JSON object returned by a successful
generate_path (the dict literal at source line 110). -/
def plan_response_fields : List String := ["path_id", "path", "metrics"]

/-- A row of the walls table (source lines 34-41, insert at line 78). -/
structure WallRow where
  id : String
  width : ℚ
  height : ℚ
deriving DecidableEq, Repr

/-- A row of the paths table (source lines 43-52, insert at line 104). -/
structure PathRow where
  id : String
  wall_id : String
  algorithm : String
  path_json : List Cell
  metrics_json : Metrics
deriving DecidableEq, Repr

/-- The response of create_wall (source line 82). -/
structure WallResponse where
  wall_id : String
deriving DecidableEq, Repr

/-- A fastapi HTTPException: status code and detail string. -/
inductive ApiError where
  | http : Nat → String → ApiError
deriving DecidableEq, Repr

/-- The status code of an HTTPException. -/
def ApiError.status : ApiError → Nat
  | .http s _ => s

/-- The mutable world the endpoints act on: the Redis keyspace (split by its
two key prefixes), the two PostgreSQL tables and the RabbitMQ queue. -/
structure St where
  wallObs : String → Option (List Obstacle)
  pathCache : String → Option (List Cell)
  walls : List WallRow
  paths : List PathRow
  published : List (List Cell)

/-- Point update of a string-keyed map (the effect of redis r.set). -/
def updateMap {α : Type} (m : String → Option α) (k : String) (v : α) :
    String → Option α :=
  fun k2 => if k2 = k then some v else m k2

/-- The initial world: empty cache, empty tables, nothing published. -/
def st0 : St :=
  { wallObs := fun _ => none
    pathCache := fun _ => none
    walls := []
    paths := []
    published := [] }

/-- The Redis key f"wall:{wall_id}:obstacles" (source lines 80, 89). -/
def wallObsKey (wall_id : String) : String :=
  "wall:" ++ wall_id ++ ":obstacles"

/-- The Redis key f"path:{path_id}" (source lines 107, 118). -/
def pathKey (path_id : String) : String :=
  "path:" ++ path_id

/-- The empty grid [[0]*grid_size for _ in range(grid_size)]
(source line 92). -/
def emptyGrid : List (List Nat) :=
  List.replicate gridSize (List.replicate gridSize 0)

/-- The cell an obstacle marks, if any: x = int(obs["x"]), y = int(obs["y"]),
marked only when 0 <= x < grid_size and 0 <= y < grid_size
(source lines 94-96). -/
def markCell (o : Obstacle) : Option (Nat × Nat) :=
  let x : Int := truncQ o.x
  let y : Int := truncQ o.y
  if 0 ≤ x ∧ x < (gridSize : Int) ∧ 0 ≤ y ∧ y < (gridSize : Int) then
    some (x.toNat, y.toNat)
  else
    none

/-- The grid update grid[y][x] = 1 for one obstacle, guarded by the bounds
check (source lines 93-97). -/
def markObstacle (g : List (List Nat)) (o : Obstacle) : List (List Nat) :=
  match markCell o with
  | none => g
  | some (x, y) => g.set y ((g.getD y []).set x 1)

/-- The full rasterization loop of generate_path (source lines 92-97). -/
def buildGrid (obstacles : List Obstacle) : List (List Nat) :=
  obstacles.foldl markObstacle emptyGrid

/-- Reading grid[y][x] (0 when out of range). -/
def cellAt (g : List (List Nat)) (y x : Nat) : Nat :=
  (g.getD y []).getD x 0

/-- Total number of occupied cells of a grid. -/
def occupiedCount (g : List (List Nat)) : Nat :=
  (g.map List.sum).sum

/-- Bounds test for a cell of the 10 by 10 grid. -/
def inBoundsCell (c : Cell) : Bool :=
  c.1 < gridSize && c.2 < gridSize

/-- Occupancy test for a cell (x, y): grid[y][x] == 1. -/
def occupiedCell (g : List (List Nat)) (c : Cell) : Bool :=
  cellAt g c.2 c.1 == 1

/-- The 4-neighbourhood of a cell, before bounds filtering. -/
def neighbors4 (c : Cell) : List Cell :=
  [(c.1 + 1, c.2), (c.1, c.2 + 1)]
    ++ (if c.1 > 0 then [(c.1 - 1, c.2)] else [])
    ++ (if c.2 > 0 then [(c.1, c.2 - 1)] else [])

/-- Breadth-first worker: the queue holds pairs of a frontier cell and the
reversed trail that reached it; visited lists every cell ever enqueued. -/
def bfsAux (g : List (List Nat)) (goal : Cell) :
    Nat → List (Cell × List Cell) → List Cell → List Cell
  | 0, _, _ => []
  | _ + 1, [], _ => []
  | fuel + 1, (c, trail) :: queue, visited =>
    if c = goal then (c :: trail).reverse
    else
      let next := (neighbors4 c).filter fun n =>
        inBoundsCell n && !occupiedCell g n && !visited.contains n
      bfsAux g goal fuel (queue ++ next.map fun n => (n, c :: trail)) (visited ++ next)

/-- Search for a path from start to goal; the fuel 400 exceeds the number of
possible pops (each of the 100 cells is enqueued at most once). Returns the
path of cells including both endpoints, or [] when the frontier empties. -/
def bfs (g : List (List Nat)) (start goal : Cell) : List Cell :=
  bfsAux g goal 400 [(start, [])] [start]

/-- Modelled from the spec: the aStar module (imported at source line 4,
file aStar.py) is not under src/. Per spec section 4.2 the search validates
that start and goal are in bounds and unoccupied, failing with
InvalidEndpointError otherwise; terminates with the found path, or with an
empty path when the open set empties without reaching the goal (not an
error). The concrete search order is this model's choice; the claims settled
against it use only the validation behaviour and the empty-path outcome. -/
def astar (g : List (List Nat)) (start goal : Cell) :
    Except String (List Cell) :=
  if !inBoundsCell start || !inBoundsCell goal
      || occupiedCell g start || occupiedCell g goal then
    Except.error "InvalidEndpointError"
  else
    Except.ok (bfs g start goal)

/-- The detail string of the HTTP 500 produced when the wall key is absent:
r.get returns None and json.loads(None) raises TypeError with this message,
caught by the except block at source lines 112-114. -/
def jsonNoneDetail : String :=
  "the JSON object must be str, bytes or bytearray, not NoneType"

/-- The part of generate_path from the astar call to the response value
(source lines 99-110), as a function of the built grid and the fresh path
identifier: run the search between the fixed corners, attach the metrics
dict, or surface the search exception as an HTTP 500. -/
def planOutcome (grid : List (List Nat)) (fresh_path_id : String) :
    Except ApiError PlanResponse :=
  match astar grid (0, 0) (gridSize - 1, gridSize - 1) with
  | Except.error e => Except.error (ApiError.http 500 e)
  | Except.ok path => Except.ok ⟨fresh_path_id, path, ⟨50, path.length⟩⟩

/-- The POST /walls/ endpoint (source lines 75-82): insert a walls row,
store the obstacle list in Redis under the wall key, return the wall id.
The uuid4 wall id is the explicit fresh_wall_id argument. -/
def create_wall (st : St) (wall : Wall) (fresh_wall_id : String) :
    WallResponse × St :=
  (⟨fresh_wall_id⟩,
   { st with
     walls := st.walls ++ [⟨fresh_wall_id, wall.width, wall.height⟩]
     wallObs := updateMap st.wallObs (wallObsKey fresh_wall_id) wall.obstacles })

/-- The POST /plan/ endpoint (source lines 84-114): read the obstacle list
from Redis (a missing key makes json.loads raise, caught as HTTP 500),
rasterize onto the fixed 10 by 10 grid, run astar between the fixed corners
(an astar exception is caught as HTTP 500), insert a paths row, cache the
path in Redis, and return the response dict. The uuid4 path id is the
explicit fresh_path_id argument. -/
def generate_path (st : St) (req : PathRequest) (fresh_path_id : String) :
    Except ApiError PlanResponse × St :=
  match st.wallObs (wallObsKey req.wall_id) with
  | none => (Except.error (ApiError.http 500 jsonNoneDetail), st)
  | some obstacles =>
    match planOutcome (buildGrid obstacles) fresh_path_id with
    | Except.error e => (Except.error e, st)
    | Except.ok resp =>
      (Except.ok resp,
       { st with
         paths := st.paths ++
           [⟨fresh_path_id, req.wall_id, req.algorithm, resp.path, resp.metrics⟩]
         pathCache := updateMap st.pathCache (pathKey fresh_path_id) resp.path })

/-- The store read SELECT ... FROM paths WHERE id = path_id with fetchone
(source lines 120-121 and 143-144). -/
def storeLoad (st : St) (path_id : String) : Option PathRow :=
  st.paths.find? fun row => row.id == path_id

/-- The POST /execute/path_id endpoint (source lines 116-129): read the
cached path; on a miss read the paths table; when both miss, raise HTTP 404;
otherwise publish the path to the robot_path queue and report "sent". -/
def execute_path (st : St) (path_id : String) : Except ApiError String × St :=
  match st.pathCache (pathKey path_id) with
  | some p =>
    (Except.ok "sent", { st with published := st.published ++ [p] })
  | none =>
    match storeLoad st path_id with
    | none => (Except.error (ApiError.http 404 "Path not found"), st)
    | some row =>
      (Except.ok "sent", { st with published := st.published ++ [row.path_json] })

/-- Stated from the spec's words, the rasterization rule the claim about
circles asserts (spec section 4.1): a circle obstacle marks a cell exactly
when the distance from the cell's center to the obstacle's center is at most
the radius. Cell (x, y) covers the unit square with center
(x + 1/2, y + 1/2). This definition exists to be compared with buildGrid,
which is translated from the source. -/
def specCircleMarked (o : Obstacle) (x y : Nat) : Prop :=
  ∃ r, o.radius = some r ∧
    (((x : ℚ) + 1 / 2) - o.x) ^ 2 + (((y : ℚ) + 1 / 2) - o.y) ^ 2 ≤ r ^ 2

-- Concrete fixtures used by counterexamples and witnesses.

/-- A wall whose two obstacles enclose the start corner (0, 0), so the fixed
goal (9, 9) is unreachable and the search stays tiny. -/
def wallA : Wall :=
  ⟨10, 10, [⟨"circle", 1, 0, some 1, none, none⟩, ⟨"circle", 0, 1, some 1, none, none⟩]⟩

/-- The plan request naming wallA under id w1 with the supported algorithm
string. -/
def reqA : PathRequest := ⟨"w1", "astar"⟩

/-- The world after registering wallA under id w1. -/
def stA : St := (create_wall st0 wallA "w1").2

/-- First plan run against wallA with fresh path id p1. -/
def runA1 : Except ApiError PlanResponse × St := generate_path stA reqA "p1"

/-- Second, identical plan run with fresh path id p2. -/
def runA2 : Except ApiError PlanResponse × St := generate_path runA1.2 reqA "p2"

-- List helper lemmas for the grid characterization.

theorem getD_replicate {α : Type} (n i : Nat) (a d : α) :
    (List.replicate n a).getD i d = if i < n then a else d := by
  induction n generalizing i with
  | zero => simp
  | succ m ih =>
    cases i with
    | zero => simp [List.replicate_succ]
    | succ j => simpa [List.replicate_succ, Nat.succ_lt_succ_iff] using ih j

theorem getD_set_self {α : Type} (l : List α) (i : Nat) (v d : α)
    (h : i < l.length) : (l.set i v).getD i d = v := by
  induction l generalizing i with
  | nil => simp at h
  | cons a t ih =>
    cases i with
    | zero => rfl
    | succ j => simpa using ih j (by simpa using h)

theorem getD_set_ne {α : Type} (l : List α) (i j : Nat) (v d : α)
    (h : i ≠ j) : (l.set i v).getD j d = l.getD j d := by
  induction l generalizing i j with
  | nil => rfl
  | cons a t ih =>
    cases i with
    | zero =>
      cases j with
      | zero => exact absurd rfl h
      | succ k => rfl
    | succ m =>
      cases j with
      | zero => rfl
      | succ k => simpa using ih m k (fun hmk => h (by rw [hmk]))

theorem find?_append_of_none {α : Type} (p : α → Bool) (l1 l2 : List α)
    (h : l1.find? p = none) : (l1 ++ l2).find? p = l2.find? p := by
  induction l1 with
  | nil => rfl
  | cons a t ih =>
    simp only [List.cons_append, List.find?_cons] at h ⊢
    cases hp : p a with
    | true => simp [hp] at h
    | false => simp only [hp] at h ⊢; exact ih h

theorem find?_eq_none_of_all {α : Type} (p : α → Bool) (l : List α)
    (h : ∀ x ∈ l, p x = false) : l.find? p = none := by
  induction l with
  | nil => rfl
  | cons a t ih =>
    rw [List.find?_cons, h a (by simp)]
    exact ih fun x hx => h x (by simp [hx])

-- Grid well-formedness and the cell-level characterization of buildGrid.

/-- A grid with gridSize rows of gridSize cells each. -/
def WFGrid (g : List (List Nat)) : Prop :=
  g.length = gridSize ∧ ∀ row ∈ g, row.length = gridSize

theorem wf_emptyGrid : WFGrid emptyGrid := by
  constructor
  · simp [emptyGrid]
  · intro row hrow
    rw [List.eq_of_mem_replicate hrow]
    simp

theorem markCell_lt (o : Obstacle) (x y : Nat)
    (h : markCell o = some (x, y)) : x < gridSize ∧ y < gridSize := by
  simp only [markCell] at h
  split at h
  · rename_i hc
    obtain ⟨h0x, hx, h0y, hy⟩ := hc
    simp only [Option.some.injEq, Prod.mk.injEq] at h
    obtain ⟨h1, h2⟩ := h
    constructor <;> omega
  · simp at h

theorem wf_markObstacle (g : List (List Nat)) (o : Obstacle)
    (h : WFGrid g) : WFGrid (markObstacle g o) := by
  unfold markObstacle
  cases hm : markCell o with
  | none => exact h
  | some xy =>
    obtain ⟨x, y⟩ := xy
    have hb := markCell_lt o x y hm
    constructor
    · simp [h.1]
    · intro row hrow
      rcases List.mem_or_eq_of_mem_set hrow with hmem | heq
      · exact h.2 row hmem
      · have hyl : y < g.length := by rw [h.1]; exact hb.2
        have hrowmem : g.getD y [] ∈ g := by
          rw [List.getD_eq_getElem g [] hyl]
          exact List.getElem_mem hyl
        rw [heq, List.length_set]
        exact h.2 _ hrowmem

theorem cellAt_markObstacle (g : List (List Nat)) (o : Obstacle)
    (x y : Nat) (hwf : WFGrid g) :
    cellAt (markObstacle g o) y x =
      if markCell o = some (x, y) then 1 else cellAt g y x := by
  unfold markObstacle cellAt
  cases hm : markCell o with
  | none => simp
  | some xy =>
    obtain ⟨mx, my⟩ := xy
    have hb := markCell_lt o mx my hm
    by_cases hy : my = y
    · subst hy
      rw [getD_set_self _ my _ _ (by rw [hwf.1]; exact hb.2)]
      have hrowmem : g.getD my [] ∈ g := by
        have hyl : my < g.length := by rw [hwf.1]; exact hb.2
        rw [List.getD_eq_getElem g [] hyl]
        exact List.getElem_mem hyl
      by_cases hx : mx = x
      · subst hx
        rw [getD_set_self _ mx _ _ (by rw [hwf.2 _ hrowmem]; exact hb.1)]
        simp
      · rw [getD_set_ne _ _ _ _ _ hx]
        simp [hx]
    · rw [getD_set_ne _ _ _ _ _ hy]
      simp [hy]

theorem cellAt_foldl_markObstacle (obs : List Obstacle)
    (g : List (List Nat)) (hwf : WFGrid g) (x y : Nat) :
    cellAt (obs.foldl markObstacle g) y x = 1 ↔
      (∃ o ∈ obs, markCell o = some (x, y)) ∨ cellAt g y x = 1 := by
  induction obs generalizing g with
  | nil => simp
  | cons o rest ih =>
    rw [List.foldl_cons, ih (markObstacle g o) (wf_markObstacle g o hwf),
      cellAt_markObstacle g o x y hwf]
    by_cases h : markCell o = some (x, y)
    · simp only [h, if_pos rfl]
      constructor
      · intro _; exact Or.inl ⟨o, by simp, h⟩
      · intro _; exact Or.inr rfl
    · rw [if_neg h]
      constructor
      · rintro (⟨o2, ho2, hm2⟩ | hg)
        · exact Or.inl ⟨o2, by simp [ho2], hm2⟩
        · exact Or.inr hg
      · rintro (⟨o2, ho2, hm2⟩ | hg)
        · rcases List.mem_cons.mp ho2 with rfl | ho2r
          · exact absurd hm2 h
          · exact Or.inl ⟨o2, ho2r, hm2⟩
        · exact Or.inr hg

theorem cellAt_emptyGrid (x y : Nat) : cellAt emptyGrid y x = 0 := by
  unfold cellAt emptyGrid
  rw [getD_replicate]
  split
  · rw [getD_replicate]; split <;> rfl
  · rfl

/-- Cell-level description of the source's rasterization loop: grid[y][x]
holds 1 exactly when some obstacle of the list truncates onto (x, y) and
passes the bounds check. -/
theorem cellAt_buildGrid (obs : List Obstacle) (x y : Nat) :
    cellAt (buildGrid obs) y x = 1 ↔ ∃ o ∈ obs, markCell o = some (x, y) := by
  unfold buildGrid
  rw [cellAt_foldl_markObstacle obs emptyGrid wf_emptyGrid x y]
  simp [cellAt_emptyGrid]

-- Helper lemmas about the endpoints.

theorem markCell_eq_iff (o : Obstacle) (x y : Nat)
    (hx : x < gridSize) (hy : y < gridSize) :
    markCell o = some (x, y) ↔
      truncQ o.x = (x : Int) ∧ truncQ o.y = (y : Int) := by
  simp only [markCell]
  constructor
  · intro h
    split at h
    · rename_i hc
      simp only [Option.some.injEq, Prod.mk.injEq] at h
      obtain ⟨h1, h2⟩ := h
      obtain ⟨h0x, hxx, h0y, hyy⟩ := hc
      constructor <;> omega
    · simp at h
  · rintro ⟨h1, h2⟩
    rw [if_pos]
    · rw [h1, h2]
      simp
    · refine ⟨?_, ?_, ?_, ?_⟩ <;> omega

theorem truncQ_eq_floor (q : ℚ) (h : 0 ≤ q) : truncQ q = ⌊q⌋ := by
  have hnum : ¬ q.num < 0 := not_lt.mpr (Rat.num_nonneg.mpr h)
  unfold truncQ
  rw [if_neg hnum, Rat.floor_def]

theorem truncQ_eq_ceil (q : ℚ) (h : q < 0) : truncQ q = ⌈q⌉ := by
  have hnum : q.num < 0 := by
    by_contra hc
    exact absurd (Rat.num_nonneg.mp (not_lt.mp hc)) (not_le.mpr h)
  unfold truncQ
  rw [if_pos hnum]
  have hfd : ⌊-q⌋ = (-q).num / ((-q).den : Int) := Rat.floor_def
  rw [Int.floor_neg, Rat.neg_num, Rat.neg_den] at hfd
  omega

theorem truncQ_neg_of_le_neg_one (q : ℚ) (h : q ≤ -1) : truncQ q < 0 := by
  have hq : q < 0 := lt_of_le_of_lt h (by norm_num)
  rw [truncQ_eq_ceil q hq]
  have hc : ⌈q⌉ ≤ -1 := Int.ceil_le.mpr (by exact_mod_cast h)
  omega

theorem le_truncQ_of_le (n : Nat) (q : ℚ) (h : (n : ℚ) ≤ q) :
    (n : Int) ≤ truncQ q := by
  have hq : 0 ≤ q := le_trans (by positivity) h
  rw [truncQ_eq_floor q hq]
  exact Int.le_floor.mpr (by exact_mod_cast h)

/-- Fidelity of the truncation direction: a coordinate in the open interval
(-1, 0) truncates to 0, as Python's int() does. -/
theorem truncQ_eq_zero_of_neg_fraction (q : ℚ) (h1 : -1 < q) (h2 : q < 0) :
    truncQ q = 0 := by
  rw [truncQ_eq_ceil q h2]
  have hle : ⌈q⌉ ≤ 0 := Int.ceil_le.mpr (by exact_mod_cast h2.le)
  have hgt : (-1 : Int) < ⌈q⌉ := Int.lt_ceil.mpr (by exact_mod_cast h1)
  omega

/-- Fidelity of the bounds check on a boundary anchor: an obstacle at
x = -1/2 passes the source's check (int(-0.5) = 0) and marks the boundary
cell (0, 5), exactly as source lines 94-97 do. -/
theorem markCell_boundary_anchor :
    markCell ⟨"circle", -(1 : ℚ) / 2, 5, some 1, none, none⟩ = some (0, 5) := by
  have hx : truncQ (-(1 : ℚ) / 2) = 0 :=
    truncQ_eq_zero_of_neg_fraction _ (by norm_num) (by norm_num)
  simp only [markCell]
  rw [hx, show truncQ (5 : ℚ) = 5 from rfl]
  norm_num
  decide

/-- Consequently the grid built from that single obstacle occupies
grid[5][0]: obstacles partially outside the wall still mark their in-bounds
truncated cell. -/
theorem cellAt_buildGrid_boundary_anchor :
    cellAt (buildGrid [⟨"circle", -(1 : ℚ) / 2, 5, some 1, none, none⟩]) 5 0 = 1 :=
  (cellAt_buildGrid _ 0 5).mpr
    ⟨⟨"circle", -(1 : ℚ) / 2, 5, some 1, none, none⟩, by simp,
     markCell_boundary_anchor⟩

theorem markCell_eq_none_of_oob (o : Obstacle)
    (h : o.x ≤ -1 ∨ (gridSize : ℚ) ≤ o.x ∨ o.y ≤ -1 ∨ (gridSize : ℚ) ≤ o.y) :
    markCell o = none := by
  simp only [markCell]
  rw [if_neg]
  rintro ⟨h1, h2, h3, h4⟩
  rcases h with h | h | h | h
  · exact absurd h1 (not_le.mpr (truncQ_neg_of_le_neg_one o.x h))
  · exact absurd h2 (not_lt.mpr (le_truncQ_of_le gridSize o.x h))
  · exact absurd h3 (not_le.mpr (truncQ_neg_of_le_neg_one o.y h))
  · exact absurd h4 (not_lt.mpr (le_truncQ_of_le gridSize o.y h))

theorem markObstacle_of_none (g : List (List Nat)) (o : Obstacle)
    (h : markCell o = none) : markObstacle g o = g := by
  unfold markObstacle
  rw [h]

theorem buildGrid_drop_oob (l1 l2 : List Obstacle) (o : Obstacle)
    (h : markCell o = none) :
    buildGrid (l1 ++ o :: l2) = buildGrid (l1 ++ l2) := by
  unfold buildGrid
  rw [List.foldl_append, List.foldl_append, List.foldl_cons,
    markObstacle_of_none _ o h]

theorem astar_ok_of_free (g : List (List Nat))
    (h0 : occupiedCell g (0, 0) = false)
    (h9 : occupiedCell g (gridSize - 1, gridSize - 1) = false) :
    astar g (0, 0) (gridSize - 1, gridSize - 1) =
      Except.ok (bfs g (0, 0) (gridSize - 1, gridSize - 1)) := by
  have hcond : (!inBoundsCell (0, 0) || !inBoundsCell (gridSize - 1, gridSize - 1)
      || occupiedCell g (0, 0) || occupiedCell g (gridSize - 1, gridSize - 1)) = false := by
    rw [h0, h9]
    decide
  unfold astar
  rw [hcond]
  simp

theorem planOutcome_ok_of_free (g : List (List Nat)) (pid : String)
    (h0 : occupiedCell g (0, 0) = false)
    (h9 : occupiedCell g (gridSize - 1, gridSize - 1) = false) :
    planOutcome g pid =
      Except.ok ⟨pid, bfs g (0, 0) (gridSize - 1, gridSize - 1),
        ⟨50, (bfs g (0, 0) (gridSize - 1, gridSize - 1)).length⟩⟩ := by
  unfold planOutcome
  rw [astar_ok_of_free g h0 h9]

theorem planOutcome_path_id (g : List (List Nat)) (pid : String)
    (resp : PlanResponse) (h : planOutcome g pid = Except.ok resp) :
    resp.path_id = pid := by
  unfold planOutcome at h
  cases hs : astar g (0, 0) (gridSize - 1, gridSize - 1) with
  | error e => rw [hs] at h; simp at h
  | ok path =>
    rw [hs] at h
    simp only [Except.ok.injEq] at h
    rw [← h]

theorem generate_path_fst (st : St) (req : PathRequest) (pid : String)
    (obs : List Obstacle)
    (hw : st.wallObs (wallObsKey req.wall_id) = some obs) :
    (generate_path st req pid).1 = planOutcome (buildGrid obs) pid := by
  unfold generate_path
  rw [hw]
  cases h : planOutcome (buildGrid obs) pid with
  | error e => simp [h]
  | ok resp => simp [h]

theorem generate_path_wallObs (st : St) (req : PathRequest) (pid : String) :
    (generate_path st req pid).2.wallObs = st.wallObs := by
  unfold generate_path
  cases hw : st.wallObs (wallObsKey req.wall_id) with
  | none => rfl
  | some obs =>
    cases h : planOutcome (buildGrid obs) pid with
    | error e => simp [h]
    | ok resp => simp [h]

theorem create_wall_lookup (st : St) (w : Wall) (wid : String) :
    (create_wall st w wid).2.wallObs (wallObsKey wid) = some w.obstacles := by
  simp [create_wall, updateMap]

/-- Evaluation of one run of generate_path on a registered wall whose search
succeeds: the response carries the fresh id, the found path and the metrics
dict, a paths row is appended and the path is cached. -/
theorem generate_path_eq (st : St) (req : PathRequest) (pid : String)
    (obstacles : List Obstacle) (path : List Cell)
    (hw : st.wallObs (wallObsKey req.wall_id) = some obstacles)
    (hsearch : astar (buildGrid obstacles) (0, 0) (gridSize - 1, gridSize - 1)
      = Except.ok path) :
    generate_path st req pid =
      (Except.ok ⟨pid, path, ⟨50, path.length⟩⟩,
       { st with
         paths := st.paths ++
           [⟨pid, req.wall_id, req.algorithm, path, ⟨50, path.length⟩⟩]
         pathCache := updateMap st.pathCache (pathKey pid) path }) := by
  have hpo : planOutcome (buildGrid obstacles) pid
      = Except.ok ⟨pid, path, ⟨50, path.length⟩⟩ := by
    unfold planOutcome
    rw [hsearch]
  simp only [generate_path, hw, hpo]

-- C1: plan deduplication by fingerprint.

/-- C1 counterexample: two plan requests with identical fingerprint inputs
(the same registered wall, hence identical grid content, the same fixed
start and goal, the same algorithm string) do not share one Plan: the second
run computes and persists a new Plan under its own fresh identifier, so two
rows end up in the paths table and the two responses differ in path_id. -/
theorem C1_counterexample :
    runA1.1 = Except.ok ⟨"p1", [], ⟨50, 0⟩⟩ ∧
    runA2.1 = Except.ok ⟨"p2", [], ⟨50, 0⟩⟩ ∧
    ("p1" : String) ≠ "p2" ∧
    runA2.2.paths =
      [⟨"p1", "w1", "astar", [], ⟨50, 0⟩⟩, ⟨"p2", "w1", "astar", [], ⟨50, 0⟩⟩] := by
  refine ⟨rfl, rfl, by decide, rfl⟩

/-- C1 (amended): the service performs no deduplication: every plan request,
identical fingerprint inputs or not, computes the search anew and persists a
fresh Plan under the fresh uuid it was given; the path and metrics of two
identical requests coincide (the computation is deterministic) but the
identifiers differ and both Plans are appended to the store. -/
theorem C1_amended_each_request_creates_new_plan
    (st : St) (req : PathRequest) (p1 p2 : String)
    (obstacles : List Obstacle) (path : List Cell)
    (hw : st.wallObs (wallObsKey req.wall_id) = some obstacles)
    (hsearch : astar (buildGrid obstacles) (0, 0) (gridSize - 1, gridSize - 1)
      = Except.ok path) :
    (generate_path st req p1).1 = Except.ok ⟨p1, path, ⟨50, path.length⟩⟩ ∧
    (generate_path (generate_path st req p1).2 req p2).1
      = Except.ok ⟨p2, path, ⟨50, path.length⟩⟩ ∧
    (generate_path (generate_path st req p1).2 req p2).2.paths
      = st.paths
        ++ [⟨p1, req.wall_id, req.algorithm, path, ⟨50, path.length⟩⟩]
        ++ [⟨p2, req.wall_id, req.algorithm, path, ⟨50, path.length⟩⟩] := by
  have h1 := generate_path_eq st req p1 obstacles path hw hsearch
  have hw2 : (generate_path st req p1).2.wallObs (wallObsKey req.wall_id)
      = some obstacles := by
    rw [generate_path_wallObs]
    exact hw
  have h2 := generate_path_eq (generate_path st req p1).2 req p2 obstacles path
    hw2 hsearch
  refine ⟨?_, ?_, ?_⟩
  · rw [h1]
  · rw [h2]
  · rw [h2, h1]

/-- Witness for C1 (amended) at the concrete fixture: wallA registered as
w1, two identical requests with fresh ids p1 and p2. -/
theorem C1_amended_witness :
    (generate_path stA reqA "p1").1 = Except.ok ⟨"p1", [], ⟨50, 0⟩⟩ ∧
    (generate_path (generate_path stA reqA "p1").2 reqA "p2").1
      = Except.ok ⟨"p2", [], ⟨50, 0⟩⟩ ∧
    (generate_path (generate_path stA reqA "p1").2 reqA "p2").2.paths
      = stA.paths ++ [⟨"p1", "w1", "astar", [], ⟨50, 0⟩⟩]
                  ++ [⟨"p2", "w1", "astar", [], ⟨50, 0⟩⟩] :=
  C1_amended_each_request_creates_new_plan stA reqA "p1" "p2"
    wallA.obstacles [] (by rfl) (by rfl)

-- C2: circle rasterization.

/-- A circle obstacle at (5, 5) with radius 3. -/
def circleObs : Obstacle := ⟨"circle", 5, 5, some 3, none, none⟩

/-- C2 counterexample: for the circle at (5, 5) with radius 3 (a radius
spanning several cells), the spec's rule marks cell (4, 5) (its center is
within distance 3 of the circle's center) but the code leaves grid[5][4]
at 0, and the code marks exactly one cell of the whole grid, not more than
one. -/
theorem C2_counterexample :
    circleObs.radius = some 3 ∧
    specCircleMarked circleObs 4 5 ∧
    cellAt (buildGrid [circleObs]) 5 4 = 0 ∧
    occupiedCount (buildGrid [circleObs]) = 1 := by
  refine ⟨rfl, ⟨3, rfl, by norm_num [circleObs]⟩, by decide, by decide⟩

/-- C2 (amended): rasterization ignores the shape tag and the radius
entirely: a cell (x, y) of the grid is occupied exactly when some obstacle
of the list has int-truncated anchor (x, y) (and in-bounds anchors are the
only ones that mark anything), so every obstacle marks at most the single
cell its anchor truncates to. -/
theorem C2_amended_anchor_cell_only (obstacles : List Obstacle) (x y : Nat)
    (hx : x < gridSize) (hy : y < gridSize) :
    cellAt (buildGrid obstacles) y x = 1 ↔
      ∃ o ∈ obstacles, truncQ o.x = (x : Int) ∧ truncQ o.y = (y : Int) := by
  rw [cellAt_buildGrid]
  constructor
  · rintro ⟨o, ho, hm⟩
    exact ⟨o, ho, (markCell_eq_iff o x y hx hy).mp hm⟩
  · rintro ⟨o, ho, hm⟩
    exact ⟨o, ho, (markCell_eq_iff o x y hx hy).mpr hm⟩

/-- Witness for C2 (amended): the circle at (5, 5) occupies grid[5][5]. -/
theorem C2_amended_witness :
    5 < gridSize ∧ cellAt (buildGrid [circleObs]) 5 5 = 1 :=
  ⟨by decide,
   (C2_amended_anchor_cell_only [circleObs] 5 5 (by decide) (by decide)).mpr
     ⟨circleObs, by simp, by decide, by decide⟩⟩

-- C3: out-of-bounds obstacles are clipped, not rejected.

/-- C3: rasterization clips rather than rejects. For every obstacle list
only in-bounds cells are ever marked (an obstacle whose anchor truncates to
a boundary cell, such as x in the open interval (-1, 0) giving int(x) = 0,
marks that in-bounds cell). An obstacle whose anchor position lies outside
the wall far enough that int() truncates it out of bounds (x at most -1 or
at least 10, likewise for y) contributes no mark at all, alone it leaves the
grid empty, and the plan outcome equals the outcome for the list without it,
so it never causes the request to be rejected. Finally, whatever the
obstacle list, the request completes with a successful response whenever the
fixed corner cells are free. -/
theorem C3_oob_obstacles_clipped (l1 l2 : List Obstacle) (o : Obstacle)
    (hoob : o.x ≤ -1 ∨ (gridSize : ℚ) ≤ o.x ∨
            o.y ≤ -1 ∨ (gridSize : ℚ) ≤ o.y) :
    (∀ obstacles : List Obstacle, ∀ x y : Nat,
      cellAt (buildGrid obstacles) y x = 1 → x < gridSize ∧ y < gridSize) ∧
    buildGrid (l1 ++ o :: l2) = buildGrid (l1 ++ l2) ∧
    buildGrid [o] = emptyGrid ∧
    (∀ st : St, ∀ req : PathRequest, ∀ pid : String,
      st.wallObs (wallObsKey req.wall_id) = some (l1 ++ o :: l2) →
      (generate_path st req pid).1 = planOutcome (buildGrid (l1 ++ l2)) pid) ∧
    (∀ obstacles : List Obstacle, ∀ st : St, ∀ req : PathRequest,
      ∀ pid : String,
      st.wallObs (wallObsKey req.wall_id) = some obstacles →
      occupiedCell (buildGrid obstacles) (0, 0) = false →
      occupiedCell (buildGrid obstacles) (gridSize - 1, gridSize - 1) = false →
      (generate_path st req pid).1 =
        Except.ok ⟨pid,
          bfs (buildGrid obstacles) (0, 0) (gridSize - 1, gridSize - 1),
          ⟨50, (bfs (buildGrid obstacles) (0, 0)
            (gridSize - 1, gridSize - 1)).length⟩⟩) := by
  have hnone := markCell_eq_none_of_oob o hoob
  have hdrop := buildGrid_drop_oob l1 l2 o hnone
  have hsingle : buildGrid [o] = emptyGrid := by
    unfold buildGrid
    rw [List.foldl_cons, markObstacle_of_none _ o hnone]
    rfl
  refine ⟨?_, hdrop, hsingle, ?_, ?_⟩
  · intro obstacles x y hxy
    obtain ⟨o2, _, hm⟩ := (cellAt_buildGrid obstacles x y).mp hxy
    exact markCell_lt o2 x y hm
  · intro st req pid hw
    rw [generate_path_fst st req pid _ hw, hdrop]
  · intro obstacles st req pid hw h0 h9
    rw [generate_path_fst st req pid _ hw, planOutcome_ok_of_free _ _ h0 h9]

/-- An obstacle far outside the grid: x truncates to -4, y to 20. -/
def oobObs : Obstacle := ⟨"circle", -4, 20, some 1, none, none⟩

/-- A wall carrying the out-of-bounds obstacle ahead of wallA's obstacles. -/
def wallOOB : Wall :=
  ⟨10, 10, [oobObs, ⟨"circle", 1, 0, some 1, none, none⟩,
            ⟨"circle", 0, 1, some 1, none, none⟩]⟩

/-- The world after registering wallOOB under id w3. -/
def stOOB : St := (create_wall st0 wallOOB "w3").2

/-- Witness for C3 at the concrete fixture: the out-of-bounds obstacle of
wallOOB changes nothing and the plan request completes successfully. -/
theorem C3_witness :
    oobObs.x ≤ -1 ∧
    buildGrid ([] ++ oobObs :: wallA.obstacles) = buildGrid ([] ++ wallA.obstacles) ∧
    (generate_path stOOB ⟨"w3", "astar"⟩ "p3").1 = Except.ok ⟨"p3", [], ⟨50, 0⟩⟩ := by
  have h := C3_oob_obstacles_clipped [] wallA.obstacles oobObs
    (Or.inl (by norm_num [oobObs]))
  refine ⟨by norm_num [oobObs], h.2.1, ?_⟩
  have h5 := h.2.2.2.2 ([] ++ oobObs :: wallA.obstacles) stOOB ⟨"w3", "astar"⟩
    "p3" (by rfl) (by decide) (by decide)
  rw [h5]
  rfl

-- C4: nonpositive wall dimensions.

/-- A wall with nonpositive width and height, carrying wallA's obstacles so
the concrete search stays tiny. -/
def badWall : Wall :=
  ⟨-5, -3, [⟨"circle", 1, 0, some 1, none, none⟩,
            ⟨"circle", 0, 1, some 1, none, none⟩]⟩

/-- The world after registering badWall under id wbad. -/
def stBad : St := (create_wall st0 badWall "wbad").2

/-- C4 counterexample: a wall with width -5 and height -3 is accepted by
create_wall (wall id returned, row inserted), and the subsequent plan
request proceeds to build the fixed grid and run the search, returning a
successful response; no InvalidWallError of any kind is raised. -/
theorem C4_counterexample :
    badWall.width ≤ 0 ∧ badWall.height ≤ 0 ∧
    (create_wall st0 badWall "wbad").1 = ⟨"wbad"⟩ ∧
    stBad.walls = [⟨"wbad", -5, -3⟩] ∧
    (generate_path stBad ⟨"wbad", "astar"⟩ "pbad").1 =
      Except.ok ⟨"pbad", [], ⟨50, 0⟩⟩ := by
  refine ⟨by norm_num [badWall], by norm_num [badWall], rfl, rfl, rfl⟩

/-- C4 (amended): neither endpoint validates wall dimensions: create_wall
records any wall, nonpositive dimensions included, and the plan request on
such a wall proceeds to rasterize the obstacle list onto the fixed ten by
ten grid and run the search, exactly as for any other wall. -/
theorem C4_amended_no_dimension_validation (st : St) (w : Wall)
    (wid alg pid : String) (_hneg : w.width ≤ 0 ∨ w.height ≤ 0) :
    (create_wall st w wid).1 = ⟨wid⟩ ∧
    (create_wall st w wid).2.walls = st.walls ++ [⟨wid, w.width, w.height⟩] ∧
    (generate_path (create_wall st w wid).2 ⟨wid, alg⟩ pid).1 =
      planOutcome (buildGrid w.obstacles) pid := by
  refine ⟨rfl, rfl, ?_⟩
  exact generate_path_fst _ _ _ _ (create_wall_lookup st w wid)

/-- Witness for C4 (amended) at badWall. -/
theorem C4_amended_witness :
    badWall.width ≤ 0 ∧
    (create_wall st0 badWall "wbad").1 = ⟨"wbad"⟩ ∧
    (create_wall st0 badWall "wbad").2.walls
      = st0.walls ++ [⟨"wbad", badWall.width, badWall.height⟩] ∧
    (generate_path (create_wall st0 badWall "wbad").2 ⟨"wbad", "astar"⟩ "pbad").1
      = planOutcome (buildGrid badWall.obstacles) "pbad" := by
  have h := C4_amended_no_dimension_validation st0 badWall "wbad" "astar" "pbad"
    (Or.inl (by norm_num [badWall]))
  exact ⟨by norm_num [badWall], h.1, h.2.1, h.2.2⟩

-- C5: unsupported algorithm identifiers.

/-- C5 counterexample: a plan request whose algorithm selector is the
unsupported identifier quantum-leap completes successfully with a result;
no UnsupportedAlgorithmError is raised. -/
theorem C5_counterexample :
    (generate_path stA ⟨"w1", "quantum-leap"⟩ "p9").1 =
      Except.ok ⟨"p9", [], ⟨50, 0⟩⟩ := by
  rfl

/-- C5 (amended): the algorithm selector is ignored by the planner: any two
algorithm strings yield the same response and the same cached path (the
string is only echoed into the stored row), so an unsupported identifier is
never rejected and the single hardwired search always runs. -/
theorem C5_amended_algorithm_ignored (st : St) (w a1 a2 pid : String) :
    (generate_path st ⟨w, a1⟩ pid).1 = (generate_path st ⟨w, a2⟩ pid).1 ∧
    (generate_path st ⟨w, a1⟩ pid).2.pathCache
      = (generate_path st ⟨w, a2⟩ pid).2.pathCache := by
  cases hw : st.wallObs (wallObsKey w) with
  | none => constructor <;> simp [generate_path, hw]
  | some obs =>
    cases h : planOutcome (buildGrid obs) pid with
    | error e => constructor <;> simp [generate_path, hw, h]
    | ok resp => constructor <;> simp [generate_path, hw, h]

-- C6: missing wall reporting.

/-- A wall whose single obstacle occupies the start corner; its plan request
fails for a reason unrelated to wall lookup. -/
def blockedStartWall : Wall := ⟨10, 10, [⟨"circle", 0, 0, some 1, none, none⟩]⟩

/-- The world after registering blockedStartWall under id wb. -/
def stBS : St := (create_wall st0 blockedStartWall "wb").2

/-- C6 counterexample: a plan request naming an unknown wall id fails with
the generic internal error (HTTP 500 carrying the stringified TypeError from
json.loads(None)), the very status the except block gives every other
failure, such as an occupied start cell; there is no distinct
WallNotFoundError outcome. -/
theorem C6_counterexample :
    st0.wallObs (wallObsKey "ghost") = none ∧
    (generate_path st0 ⟨"ghost", "astar"⟩ "p1x").1 =
      Except.error (ApiError.http 500 jsonNoneDetail) ∧
    (generate_path stBS ⟨"wb", "astar"⟩ "p2x").1 =
      Except.error (ApiError.http 500 "InvalidEndpointError") := by
  refine ⟨rfl, rfl, rfl⟩

/-- C6 (amended): when no obstacle list exists for the requested wall id,
generate_path fails with the generic HTTP 500 internal error produced by the
broad except block (json.loads(None) raising TypeError), leaving the world
unchanged; the absence is not reported as a distinct WallNotFoundError. -/
theorem C6_amended_missing_wall_generic_500 (st : St) (req : PathRequest)
    (pid : String) (habs : st.wallObs (wallObsKey req.wall_id) = none) :
    generate_path st req pid =
      (Except.error (ApiError.http 500 jsonNoneDetail), st) := by
  unfold generate_path
  rw [habs]

/-- Witness for C6 (amended) at the empty world and wall id ghost. -/
theorem C6_amended_witness :
    st0.wallObs (wallObsKey "ghost") = none ∧
    generate_path st0 ⟨"ghost", "astar"⟩ "p1x" =
      (Except.error (ApiError.http 500 jsonNoneDetail), st0) :=
  ⟨rfl, C6_amended_missing_wall_generic_500 st0 ⟨"ghost", "astar"⟩ "p1x" rfl⟩

-- C7: dispatch resolves plans cache-first with store fallback.

/-- C7: execute_path resolves the plan cache-first: a cached path is
published from the cache; on a cache miss the paths table is consulted and
the row's path is published; only when both miss does the operation fail
with HTTP 404 Path not found, publishing nothing and leaving the world
unchanged. -/
theorem C7_cache_then_store_fallback (st : St) (pid : String) :
    (∀ p, st.pathCache (pathKey pid) = some p →
      execute_path st pid =
        (Except.ok "sent", { st with published := st.published ++ [p] })) ∧
    (st.pathCache (pathKey pid) = none →
      ∀ row, storeLoad st pid = some row →
      execute_path st pid =
        (Except.ok "sent",
         { st with published := st.published ++ [row.path_json] })) ∧
    (st.pathCache (pathKey pid) = none → storeLoad st pid = none →
      execute_path st pid =
        (Except.error (ApiError.http 404 "Path not found"), st)) := by
  refine ⟨?_, ?_, ?_⟩
  · intro p hp
    simp [execute_path, hp]
  · intro hc row hrow
    simp [execute_path, hc, hrow]
  · intro hc hrow
    simp [execute_path, hc, hrow]

/-- A world holding path pp only in the Redis cache and path qq only in the
paths table. -/
def stExec : St :=
  { wallObs := fun _ => none
    pathCache := updateMap (fun _ => none) (pathKey "pp") [(0, 0), (1, 0)]
    walls := []
    paths := [⟨"qq", "w1", "astar", [(0, 0), (0, 1)], ⟨50, 2⟩⟩]
    published := [] }

/-- Witness for C7: the three branches at the concrete world stExec. -/
theorem C7_witness :
    execute_path stExec "pp" =
      (Except.ok "sent",
       { stExec with published := stExec.published ++ [[(0, 0), (1, 0)]] }) ∧
    execute_path stExec "qq" =
      (Except.ok "sent",
       { stExec with published := stExec.published ++ [[(0, 0), (0, 1)]] }) ∧
    execute_path stExec "rr" =
      (Except.error (ApiError.http 404 "Path not found"), stExec) :=
  ⟨(C7_cache_then_store_fallback stExec "pp").1 [(0, 0), (1, 0)] (by rfl),
   (C7_cache_then_store_fallback stExec "qq").2.1 (by rfl)
     ⟨"qq", "w1", "astar", [(0, 0), (0, 1)], ⟨50, 2⟩⟩ (by rfl),
   (C7_cache_then_store_fallback stExec "rr").2.2 (by rfl) (by rfl)⟩

-- C8: cache/store agreement after a successful plan.

/-- C8: after every successful plan computation under a fresh plan id, the
row recorded in the paths table under the returned identifier carries
exactly the returned identifier, path and metrics (together with the
requested wall id and algorithm), and the cache holds exactly the returned
path under the returned identifier's key. -/
theorem C8_store_cache_agree (st : St) (req : PathRequest) (pid : String)
    (resp : PlanResponse) (st2 : St)
    (hfresh : ∀ row ∈ st.paths, row.id ≠ pid)
    (hrun : generate_path st req pid = (Except.ok resp, st2)) :
    resp.path_id = pid ∧
    storeLoad st2 resp.path_id =
      some ⟨resp.path_id, req.wall_id, req.algorithm, resp.path, resp.metrics⟩ ∧
    st2.pathCache (pathKey resp.path_id) = some resp.path := by
  cases hw : st.wallObs (wallObsKey req.wall_id) with
  | none =>
    have hgen : generate_path st req pid =
        (Except.error (ApiError.http 500 jsonNoneDetail), st) := by
      unfold generate_path
      rw [hw]
    rw [hgen] at hrun
    simp at hrun
  | some obs =>
    cases hs : astar (buildGrid obs) (0, 0) (gridSize - 1, gridSize - 1) with
    | error e =>
      have hpo : planOutcome (buildGrid obs) pid =
          Except.error (ApiError.http 500 e) := by
        unfold planOutcome
        rw [hs]
      have hgen : generate_path st req pid =
          (Except.error (ApiError.http 500 e), st) := by
        simp only [generate_path, hw, hpo]
      rw [hgen] at hrun
      simp at hrun
    | ok path =>
      have hgen := generate_path_eq st req pid obs path hw hs
      rw [hgen] at hrun
      simp only [Prod.mk.injEq, Except.ok.injEq] at hrun
      obtain ⟨rfl, rfl⟩ := hrun
      have hnone : st.paths.find? (fun row => row.id == pid) = none := by
        apply find?_eq_none_of_all
        intro row hrow
        exact beq_eq_false_iff_ne.mpr (hfresh row hrow)
      refine ⟨rfl, ?_, ?_⟩
      · show List.find? (fun row => row.id == pid)
            (st.paths ++ [(⟨pid, req.wall_id, req.algorithm, path,
              ⟨50, path.length⟩⟩ : PathRow)])
          = some ⟨pid, req.wall_id, req.algorithm, path, ⟨50, path.length⟩⟩
        rw [find?_append_of_none _ _ _ hnone]
        simp [List.find?]
      · show updateMap st.pathCache (pathKey pid) path (pathKey pid)
          = some path
        simp [updateMap]

/-- Witness for C8 at the concrete fixture: the first plan run against
wallA. -/
theorem C8_witness :
    (⟨"p1", [], ⟨50, 0⟩⟩ : PlanResponse).path_id = "p1" ∧
    storeLoad runA1.2 "p1" = some ⟨"p1", "w1", "astar", [], ⟨50, 0⟩⟩ ∧
    runA1.2.pathCache (pathKey "p1") = some [] := by
  have h := C8_store_cache_agree stA reqA "p1" ⟨"p1", [], ⟨50, 0⟩⟩ runA1.2
    (fun row hrow =>
      absurd (show row ∈ ([] : List PathRow) from hrow) (List.not_mem_nil row))
    (by rfl)
  exact ⟨h.1, h.2.1, h.2.2⟩

-- C9: unreachable goal is a successful, structured result.

/-- C9 counterexample: for a plan request whose goal is unreachable (wallA
encloses the start corner, so no path to the goal corner exists), the
operation succeeds with an empty path and populated metrics, but the
response object carries only the fields path_id, path and metrics: no
found status flag exists in the result, contrary to the claim. -/
theorem C9_counterexample :
    bfs (buildGrid wallA.obstacles) (0, 0) (gridSize - 1, gridSize - 1) = [] ∧
    runA1.1 = Except.ok ⟨"p1", [], ⟨50, 0⟩⟩ ∧
    plan_response_fields = ["path_id", "path", "metrics"] ∧
    "found" ∉ plan_response_fields := by
  refine ⟨rfl, rfl, rfl, by decide⟩

/-- C9 (amended): a plan request whose goal is unreachable (the search
finds no path) completes successfully: the response is Except.ok with an
empty path and metrics populated with path_length 0, distinguishable from
every error outcome (those are Except.error); the response however carries
no found flag field, the empty path being the only no-path signal. -/
theorem C9_amended_unreachable_is_success (st : St) (req : PathRequest)
    (pid : String) (obstacles : List Obstacle)
    (hw : st.wallObs (wallObsKey req.wall_id) = some obstacles)
    (h0 : occupiedCell (buildGrid obstacles) (0, 0) = false)
    (h9 : occupiedCell (buildGrid obstacles) (gridSize - 1, gridSize - 1) = false)
    (hnopath : bfs (buildGrid obstacles) (0, 0) (gridSize - 1, gridSize - 1) = []) :
    (generate_path st req pid).1 = Except.ok ⟨pid, [], ⟨50, 0⟩⟩ ∧
    "found" ∉ plan_response_fields := by
  constructor
  · rw [generate_path_fst st req pid _ hw, planOutcome_ok_of_free _ _ h0 h9,
      hnopath]
    rfl
  · decide

/-- Witness for C9 (amended) at the concrete fixture: wallA's enclosed
start. -/
theorem C9_witness :
    bfs (buildGrid wallA.obstacles) (0, 0) (gridSize - 1, gridSize - 1) = [] ∧
    (generate_path stA reqA "p1z").1 = Except.ok ⟨"p1z", [], ⟨50, 0⟩⟩ :=
  ⟨rfl,
   (C9_amended_unreachable_is_success stA reqA "p1z" wallA.obstacles
     rfl rfl rfl rfl).1⟩

-- C10: wall registration round-trip.

/-- C10: the obstacle list submitted with create_wall is exactly what the
planner reads back and rasterizes: after registering any wall under a fresh
id, the Redis wall key holds precisely the submitted obstacle list, and the
plan request's outcome is the plan outcome for the grid built from exactly
that list. -/
theorem C10_roundtrip_registration_planning (st : St) (w : Wall)
    (wid alg pid : String) :
    (create_wall st w wid).2.wallObs (wallObsKey wid) = some w.obstacles ∧
    (generate_path (create_wall st w wid).2 ⟨wid, alg⟩ pid).1 =
      planOutcome (buildGrid w.obstacles) pid := by
  refine ⟨create_wall_lookup st w wid, ?_⟩
  exact generate_path_fst _ _ _ _ (create_wall_lookup st w wid)
